import Mathlib

/-!
# Library API — verification of the entity-mutation / cache core

Shallow embedding of the `library_api` FastAPI backend (`app/main.py`,
`app/schemas.py`, `app/openlibrary.py`, `app/models.py`) as pure Lean
functions over an explicit store, together with theorems settling the
specification claims about registration, bookshelf and reading-list
invariants, the external-search error classification, and the bounded
LRU memoization cache.

Conventions:
* the SQLAlchemy session is a `Store` value threaded through each handler;
* a raised `HTTPException(status_code, detail)` is `Except.error (.http ...)`;
* a Python `AttributeError` escaping a handler (FastAPI answers 500) is
  `Except.error (.attributeError ...)`;
* timestamps are abstract `Nat` instants supplied by the caller.
-/

namespace LibraryApi

/-- A failure crossing the handler boundary: either a deliberately raised
`HTTPException` or an uncaught Python `AttributeError` (which FastAPI
turns into a 500 response). -/
inductive ApiError where
  | http (status_code : Nat) (detail : String)
  | attributeError (attr : String)
deriving DecidableEq, Repr

/-- Python's `not s or s.strip() == ""` test used throughout `main.py`:
true exactly when the string is empty or whitespace-only (stripping all
leading and trailing whitespace leaves "" iff every character is
whitespace). -/
def isBlank (s : String) : Bool :=
  s.data.all (fun ch => ch.isWhitespace)

/-- Row of the `users` table (`models.User`). -/
structure User where
  id : Nat
  username : String
  email : String
  hashed_password : String
  created_at : Nat
  updated_at : Nat
deriving DecidableEq, Repr

/-- Row of the `books` table (`models.Book`). -/
structure Book where
  id : Nat
  title : String
  author : String
  isbn : String
  genre : String
  description : String
  published_date : Option Nat
deriving DecidableEq, Repr

/-- Row of the `bookshelves` table (`models.Bookshelf`). -/
structure ShelfEntry where
  id : Nat
  user_id : Nat
  book_id : Nat
  status : String
  date_added : Nat
deriving DecidableEq, Repr

/-- Row of the `reading_lists` table (`models.ReadingList`). -/
structure ReadingListRec where
  id : Nat
  list_name : String
  user_id : Nat
deriving DecidableEq, Repr

/-- The persistent state visible to the handlers, with auto-increment
counters for the primary keys the handlers create. -/
structure Store where
  users : List User
  books : List Book
  bookshelves : List ShelfEntry
  reading_lists : List ReadingListRec
  nextUserId : Nat
  nextShelfId : Nat
  nextListId : Nat
deriving DecidableEq, Repr

def emptyStore : Store :=
  { users := [], books := [], bookshelves := [], reading_lists := []
    nextUserId := 1, nextShelfId := 1, nextListId := 1 }

/-- Modelled from the spec: `app/auth.py` is absent from the sources; the
spec only requires that on success `createUser` "stores a credential hash
(when a password is supplied)". We model hashing as an injective tagging
of the password. -/
def get_password_hash (password : String) : String :=
  "hashed:" ++ password

/-- The candidate object the `register_user` handler reads.  `password`
is an `Option` because the handler accesses `user.password`, an attribute
the `UserCreate` schema may not have defined: `none` models the missing
attribute, whose access raises `AttributeError`. -/
structure RegCandidate where
  username : String
  email : String
  password : Option String
deriving DecidableEq, Repr

/-- Embedding of `register_user` (`app/main.py`, POST /register): blank-field checks,
independent username/email uniqueness queries, then insert with hashed
credential and both timestamps stamped to `now`. -/
def register_user (user : RegCandidate) (now : Nat) (db : Store) :
    Except ApiError (User × Store) :=
  if isBlank user.username then
    .error (.http 400 "Username cannot be empty.")
  else if isBlank user.email then
    .error (.http 400 "Email cannot be empty.")
  else
    match user.password with
    | none => .error (.attributeError "password")
    | some pw =>
      if isBlank pw then
        .error (.http 400 "Password cannot be empty.")
      else
        let username_exists := db.users.find? (fun u => u.username == user.username)
        let email_exists := db.users.find? (fun u => u.email == user.email)
        if username_exists.isSome then
          .error (.http 400 "Username already exists.")
        else if email_exists.isSome then
          .error (.http 400 "Email already exists.")
        else
          let db_user : User :=
            { id := db.nextUserId
              username := user.username
              email := user.email
              hashed_password := get_password_hash pw
              created_at := now
              updated_at := now }
          .ok (db_user,
            { db with users := db.users ++ [db_user], nextUserId := db.nextUserId + 1 })

/-- The parsed `UserCreate` pydantic model (`app/schemas.py`): it declares
only `username` and `email` — no `password` field. -/
structure UserCreate where
  username : String
  email : String
deriving DecidableEq, Repr

/-- Embedding of `UserCreate` validation (`app/schemas.py`): `username` has
`min_length=5` and a non-blank validator; `email` has `min_length=1`, a
non-blank validator, and must contain '@'. -/
def validate_user_create (username email : String) : Except String UserCreate :=
  if username.length < 5 then
    .error "String should have at least 5 characters"
  else if isBlank username then
    .error "Username cannot be empty or whitespace."
  else if email.length < 1 then
    .error "String should have at least 1 character"
  else if isBlank email then
    .error "Email cannot be empty or whitespace."
  else if !(email.data.contains '@') then
    .error "Email must contain '@'."
  else
    .ok { username := username, email := email }

/-- The raw JSON body a client POSTs to /register. -/
structure RegisterBody where
  username : String
  email : String
  password : String
deriving DecidableEq, Repr

/-- The full POST /register pipeline: FastAPI parses the body through
`UserCreate` (rejecting invalid fields with 422 before any store access;
the undeclared `password` field is dropped by pydantic), then calls
`register_user`, whose `user.password` access hits a missing attribute. -/
def postRegister (body : RegisterBody) (now : Nat) (db : Store) :
    Except ApiError (User × Store) :=
  match validate_user_create body.username body.email with
  | .error msg => .error (.http 422 msg)
  | .ok uc => register_user { username := uc.username, email := uc.email, password := none } now db

/-! ## Open Library client (`app/openlibrary.py`) -/

/-- A raw document of the Open Library JSON payload, with the fields
`get_book_by_name_or_author` reads. -/
structure RawDoc where
  title : Option String
  author_name : List String
  isbn : List String
  subject : List String
  first_publish_year : Option Nat
deriving DecidableEq, Repr

/-- A parsed Open Library response body (`response.json()`). -/
structure Payload where
  docs : List RawDoc
deriving DecidableEq, Repr

/-- The outcome of the single `client.get` call inside
`search_openlibrary`: an HTTP response, an `httpx.RequestError`
(connection failure or timeout — the client is built with `timeout=10`),
or any other exception (e.g. a JSON decode failure). -/
inductive RemoteOutcome where
  | response (status_code : Nat) (reason_phrase : String) (body : Payload)
  | requestError (msg : String)
  | otherError (msg : String)
deriving DecidableEq, Repr

/-- A Python exception propagating out of the `try` block of
`search_openlibrary`. -/
inductive PyExc where
  | httpException (status_code : Nat) (detail : String)
  | requestError (msg : String)
  | other (msg : String)
deriving DecidableEq, Repr

/-- The `try` block of `search_openlibrary`: a 429 response raises
`HTTPException(503)`, any other non-200 response raises
`HTTPException(502)`, a 200 response returns its body; transport and
other failures propagate as the corresponding exceptions. -/
def openlibrary_try (r : RemoteOutcome) : Except PyExc Payload :=
  match r with
  | .requestError msg => .error (.requestError msg)
  | .otherError msg => .error (.other msg)
  | .response status_code reason_phrase body =>
    if status_code == 429 then
      .error (.httpException 503
        "Open Library API rate limit exceeded. Please try again later.")
    else if status_code != 200 then
      .error (.httpException 502
        ("Open Library API error: " ++ toString status_code ++ " " ++ reason_phrase))
    else
      .ok body

/-- Python `str(exc)` as used in the f-strings of the handlers
(Starlette renders `HTTPException` as "status: detail"). -/
def excMessage : PyExc → String
  | .httpException status_code detail => toString status_code ++ ": " ++ detail
  | .requestError msg => msg
  | .other msg => msg

/-- An `HTTPException` as raised by `search_openlibrary`. -/
structure HErr where
  status_code : Nat
  detail : String
deriving DecidableEq, Repr

/-- Embedding of `search_openlibrary` (`app/openlibrary.py`): the `try` block followed
by its two exception handlers, in source order: `except httpx.RequestError`
returns 502; the trailing `except Exception` catches EVERY remaining
exception — including the `HTTPException`s the `try` block itself raised —
and re-raises them as `HTTPException(500, "Unexpected error: ...")`. -/
def search_openlibrary (r : RemoteOutcome) : Except HErr Payload :=
  match openlibrary_try r with
  | .ok body => .ok body
  | .error (.requestError msg) =>
    .error ⟨502, "Error connecting to Open Library API: " ++ msg⟩
  | .error e =>
    .error ⟨500, "Unexpected error: " ++ excMessage e⟩

/-! ## GET /books/search (`get_book_by_name_or_author`) -/

/-- A serialized local book (`BookResponse.model_dump()`). -/
structure BookOut where
  id : Nat
  title : String
  author : String
  isbn : String
  genre : String
  description : String
  published_date : Option Nat
deriving DecidableEq, Repr

def bookToOut (b : Book) : BookOut :=
  { id := b.id, title := b.title, author := b.author, isbn := b.isbn
    genre := b.genre, description := b.description
    published_date := b.published_date }

/-- A row of the `external` result list the endpoint builds from a raw
Open Library document. -/
structure ExtDoc where
  title : Option String
  author : Option String
  isbn : Option String
  genre : Option String
  published_date : Option Nat
deriving DecidableEq, Repr

/-- Building one `external` row from a document: empty lists are falsy in
Python, so they yield `none`. -/
def docToExt (doc : RawDoc) : ExtDoc :=
  { title := doc.title
    author := if doc.author_name.isEmpty then none
              else some (String.intercalate ", " doc.author_name)
    isbn := doc.isbn.head?
    genre := if doc.subject.isEmpty then none
             else some (String.intercalate ", " doc.subject)
    published_date := doc.first_publish_year }

/-- Python truthiness of an optional query string: `None` and `""` are
falsy, anything else (whitespace included) truthy. -/
def pyTruthy : Option String → Bool
  | none => false
  | some s => !(s == "")

/-- Python `x.strip() == ""`-style blank test lifted to `Optional[str]`:
`title is None or title.strip() == ""`. -/
def optBlank : Option String → Bool
  | none => true
  | some s => isBlank s

/-- The local filter of GET /books/search: OR-match when both title and
author are truthy, single-field match otherwise, the unfiltered table
when neither is truthy. -/
def localFilter (title author : Option String) (db : Store) : List Book :=
  if pyTruthy title && pyTruthy author then
    db.books.filter (fun b => b.title == title.getD "" || b.author == author.getD "")
  else if pyTruthy title then
    db.books.filter (fun b => b.title == title.getD "")
  else if pyTruthy author then
    db.books.filter (fun b => b.author == author.getD "")
  else
    db.books

/-- An error of GET /books/search: a plain `HTTPException`, or the 404
whose `detail` is the structured object
`{message, local: [], external: []}`. -/
inductive SearchError where
  | http (status_code : Nat) (detail : String)
  | notFoundLocal (message : String) (localR : List BookOut) (externalR : List ExtDoc)
deriving DecidableEq, Repr

/-- Embedding of `get_book_by_name_or_author` (`app/main.py`, GET /books/search).
`remote` is the outcome of the outbound call the cache layer performs on
a miss; on a hit the memoized value is a previous `search_openlibrary`
result for the same key, so the handler's behavior is a function of that
outcome either way. -/
def get_book_by_name_or_author (title author : Option String) (limit : Nat)
    (external : Bool) (remote : RemoteOutcome) (db : Store) :
    Except SearchError (List BookOut × List ExtDoc) :=
  if optBlank title && optBlank author then
    .error (.http 400 "You must provide at least a non-empty title or author.")
  else
    let local_results := (localFilter title author db).map bookToOut
    if external then
      match search_openlibrary remote with
      | .error e => .error (.http e.status_code e.detail)
      | .ok data =>
        .ok (local_results, data.docs.map docToExt)
    else
      if local_results.isEmpty then
        .error (.notFoundLocal "No data found locally." [] [])
      else
        .ok (local_results, [])

/-! ## Bookshelf endpoints (`app/main.py`) -/

/-- Embedding of `models.Bookshelf.READING_STATUSES`. -/
def READING_STATUSES : List String := ["to_read", "reading", "read", "abandoned"]

/-- One row of a `BookshelfResponse.bookshelf` list. -/
structure ShelfItemOut where
  id : Nat
  book_id : Nat
  title : String
  author : String
  status : String
  added_date : Nat
deriving DecidableEq, Repr

/-- The `BookshelfResponse` schema. -/
structure BookshelfResponse where
  username : String
  bookshelf : List ShelfItemOut
deriving DecidableEq, Repr

/-- Embedding of `add_book_to_bookshelf` (`app/main.py`, POST /users/bookshelf):
validates username and status, resolves user and book, rejects a
duplicate (user, book) pair, inserts the entry stamped with today's
date, and returns a response whose `bookshelf` list is built from the
single new entry. -/
def add_book_to_bookshelf (username : String) (book_id : Nat) (status : String)
    (today : Nat) (db : Store) : Except ApiError (BookshelfResponse × Store) :=
  if isBlank username then
    .error (.http 400 "You must provide a non-empty username.")
  else if isBlank status then
    .error (.http 400 "Status cannot be blank or whitespace.")
  else if !(READING_STATUSES.contains status) then
    .error (.http 400 ("Invalid status: " ++ status))
  else
    match db.users.find? (fun u => u.username == username) with
    | none => .error (.http 404 "User not found.")
    | some user =>
      match db.books.find? (fun b => b.id == book_id) with
      | none => .error (.http 404 "Book not found.")
      | some book =>
        if (db.bookshelves.find?
            (fun e => e.user_id == user.id && e.book_id == book.id)).isSome then
          .error (.http 400 "Book already in user's bookshelf.")
        else
          let bookshelf_entry : ShelfEntry :=
            { id := db.nextShelfId, user_id := user.id, book_id := book.id
              status := status, date_added := today }
          let db2 : Store :=
            { db with bookshelves := db.bookshelves ++ [bookshelf_entry]
                      nextShelfId := db.nextShelfId + 1 }
          .ok ({ username := user.username
                 bookshelf := [{ id := bookshelf_entry.id, book_id := book.id
                                 title := book.title, author := book.author
                                 status := bookshelf_entry.status
                                 added_date := bookshelf_entry.date_added }] },
               db2)

/-- The join `entry.book` used when serializing a bookshelf: resolve each
entry's book through the foreign key (present whenever the store respects
referential integrity). -/
def shelfRows (db : Store) (entries : List ShelfEntry) : List ShelfItemOut :=
  entries.filterMap (fun e =>
    (db.books.find? (fun b => b.id == e.book_id)).map (fun b =>
      { id := e.id, book_id := b.id, title := b.title, author := b.author
        status := e.status, added_date := e.date_added }))

/-- Embedding of `get_user_bookshelf` (`app/main.py`, GET /users/bookshelf): returns
every bookshelf entry of the user. -/
def get_user_bookshelf (username : String) (db : Store) :
    Except ApiError BookshelfResponse :=
  if isBlank username then
    .error (.http 400 "You must provide a non-empty username.")
  else
    match db.users.find? (fun u => u.username == username) with
    | none => .error (.http 404 "User not found.")
    | some user =>
      .ok { username := user.username
            bookshelf := shelfRows db (db.bookshelves.filter (fun e => e.user_id == user.id)) }

/-- Embedding of `update_bookshelf_status` (`app/main.py`, PUT /users/bookshelf):
finds the (user, book) entry, validates the new status, mutates the
entry in place and returns the user's refreshed full bookshelf. -/
def update_bookshelf_status (username : String) (book_id : Nat) (new_status : String)
    (db : Store) : Except ApiError (BookshelfResponse × Store) :=
  if isBlank username then
    .error (.http 400 "You must provide a non-empty username.")
  else
    match db.users.find? (fun u => u.username == username) with
    | none => .error (.http 404 "User not found.")
    | some user =>
      match db.bookshelves.find?
          (fun e => e.user_id == user.id && e.book_id == book_id) with
      | none => .error (.http 404 "Book not found in user's bookshelf.")
      | some entry =>
        if !(READING_STATUSES.contains new_status) then
          .error (.http 400 ("Invalid status: " ++ new_status))
        else
          let db2 : Store :=
            { db with bookshelves := db.bookshelves.map (fun e =>
                if e.id == entry.id then { e with status := new_status } else e) }
          .ok ({ username := user.username
                 bookshelf := shelfRows db2 (db2.bookshelves.filter (fun e => e.user_id == user.id)) },
               db2)

/-! ## Reading-list endpoints (`app/main.py`) -/

structure ReadingListBookEntry where
  id : Nat
  book_id : Nat
  title : String
  author : String
deriving DecidableEq, Repr

structure ReadingListResponse where
  id : Nat
  username : String
  reading_list_name : String
  books : List ReadingListBookEntry
deriving DecidableEq, Repr

/-- Embedding of `create_reading_list` (`app/main.py`, POST /users/readinglists):
rejects a fourth list for the user (before even looking at the name),
rejects a duplicate (user, name) pair, otherwise inserts an empty list. -/
def create_reading_list (username name : String) (db : Store) :
    Except ApiError (ReadingListResponse × Store) :=
  if isBlank username then
    .error (.http 400 "You must provide a non-empty username.")
  else
    match db.users.find? (fun u => u.username == username) with
    | none => .error (.http 404 "User not found.")
    | some user =>
      let count := (db.reading_lists.filter (fun rl => rl.user_id == user.id)).length
      if count ≥ 3 then
        .error (.http 400 "User can have 3 reading lists simultaneously.")
      else if (db.reading_lists.find?
          (fun rl => rl.user_id == user.id && rl.list_name == name)).isSome then
        .error (.http 400 "Reading list with this name already exists.")
      else
        let reading_list : ReadingListRec :=
          { id := db.nextListId, list_name := name, user_id := user.id }
        let db2 : Store :=
          { db with reading_lists := db.reading_lists ++ [reading_list]
                    nextListId := db.nextListId + 1 }
        .ok ({ id := reading_list.id, username := user.username
               reading_list_name := reading_list.list_name, books := [] },
             db2)

/-! ## The memoization cache

`cached_search_openlibrary` is `search_openlibrary` wrapped in
`@alru_cache(maxsize=64)` (`app/main.py` line 72).  The decorator's code
is not part of the sources. -/

/-- The cache key: the exact argument triple
`(title_or_author, author, limit)` of `cached_search_openlibrary`. -/
abbrev CacheKey := Option String × Option String × Nat

/-- Modelled from the spec: the `async_lru.alru_cache` implementation is
absent from the sources; the spec describes it as a bounded memoizing
cache "keyed by (query, secondary-filter, limit)", capacity 64, with
least-recently-used eviction on overflow and hit/miss counters.  Entries
are kept most-recently-used first. -/
structure LruCache (κ ρ : Type) where
  entries : List (κ × ρ)
  hits : Nat
  misses : Nat
  maxsize : Nat
deriving Repr

def LruCache.lookup [DecidableEq κ] (c : LruCache κ ρ) (k : κ) : Option ρ :=
  (c.entries.find? (fun e => decide (e.1 = k))).map (fun e => e.2)

/-- Modelled from the spec: one `get(primary, secondary, limit)` call.
`compute` is the value the wrapped remote call would produce on this
occasion.  On a hit the stored value is returned, moved to the
most-recently-used position, and the remote is not contacted; on a miss
the remote is invoked, the result stored, and — when the bound would be
exceeded — the least-recently-used entry is dropped.  The returned `Bool`
records whether the remote was invoked. -/
def LruCache.get [DecidableEq κ] (c : LruCache κ ρ) (k : κ) (compute : ρ) :
    ρ × LruCache κ ρ × Bool :=
  match c.entries.find? (fun e => decide (e.1 = k)) with
  | some e =>
    (e.2,
     { c with entries := (k, e.2) :: c.entries.filter (fun p => decide (p.1 ≠ k))
              hits := c.hits + 1 },
     false)
  | none =>
    let grown := (k, compute) :: c.entries
    ( compute,
      { c with entries := if grown.length > c.maxsize then grown.dropLast else grown
               misses := c.misses + 1 },
      true)

/-- A fresh cache as created by `alru_cache(maxsize=64)`. -/
def emptyCache : LruCache CacheKey Payload :=
  { entries := [], hits := 0, misses := 0, maxsize := 64 }

/-- Run a sequence of `get` calls (each paired with the value the remote
would produce on that occasion) from a starting cache state. -/
def runGets [DecidableEq κ] (c : LruCache κ ρ) : List (κ × ρ) → LruCache κ ρ
  | [] => c
  | (k, v) :: rest => runGets (c.get k v).2.1 rest

/-! ## Concrete stores used by counterexamples and witnesses -/

/-- A store holding one registered user. -/
def aliceStore : Store :=
  { emptyStore with
      users := [{ id := 1, username := "alice5", email := "a@x.com",
                  hashed_password := "h", created_at := 0, updated_at := 0 }]
      nextUserId := 2 }

/-- A store with one user owning one bookshelf entry, and a second book
not yet on the shelf. -/
def shelfStore : Store :=
  { emptyStore with
      users := [{ id := 1, username := "bob12", email := "b@x.com",
                  hashed_password := "h", created_at := 0, updated_at := 0 }]
      books := [{ id := 1, title := "Dune", author := "Frank Herbert", isbn := "111",
                  genre := "scifi", description := "d", published_date := none },
                { id := 2, title := "Emma", author := "Jane Austen", isbn := "222",
                  genre := "classic", description := "d", published_date := none }]
      bookshelves := [{ id := 1, user_id := 1, book_id := 1, status := "read", date_added := 0 }]
      nextUserId := 2, nextShelfId := 2 }

/-- The state of `shelfStore` after adding book 2 to bob's shelf on day 7. -/
def shelfStoreAfter : Store :=
  { shelfStore with
      bookshelves := shelfStore.bookshelves ++
        [{ id := 2, user_id := 1, book_id := 2, status := "reading", date_added := 7 }]
      nextShelfId := 3 }

/-! ## C1 — registration pipeline -/

/-- C1: the claim states that a candidate with non-blank username, email
and password, free of conflicts, is persisted with a credential hash and
timestamps (201).  In the code, the `UserCreate` schema declares no
`password` field, so pydantic drops the supplied password and the
handler's `user.password` access raises `AttributeError` (a 500), for
every well-formed registration request — here evaluated at the spec's
own end-to-end example "reader1"/"r1@x.com"/"pw123". -/
theorem C1_register_password_attribute_missing :
    postRegister { username := "reader1", email := "r1@x.com", password := "pw123" } 3 emptyStore
      = .error (.attributeError "password") := rfl

/-! ## C3 — remote failure classification -/

/-- C3: the claim states rate-limit → 503, other non-success → 502,
network/timeout failure → 502, anything else → 500, each propagated
unconverted.  In the code the trailing `except Exception` of
`search_openlibrary` catches the `HTTPException(503)` / `HTTPException(502)`
raised in its own `try` block and re-raises them as 500 "Unexpected
error: ...": the rate-limit and non-success classifications are converted
to `InternalError`; only the network-failure (502) and catch-all (500)
branches behave as claimed. -/
theorem C3_classification_swallowed_by_catch_all :
    search_openlibrary (.response 429 "Too Many Requests" { docs := [] })
        = .error ⟨500, "Unexpected error: 503: Open Library API rate limit exceeded. Please try again later."⟩
    ∧ search_openlibrary (.response 500 "Internal Server Error" { docs := [] })
        = .error ⟨500, "Unexpected error: 502: Open Library API error: 500 Internal Server Error"⟩
    ∧ search_openlibrary (.requestError "timeout")
        = .error ⟨502, "Error connecting to Open Library API: timeout"⟩
    ∧ search_openlibrary (.otherError "boom")
        = .error ⟨500, "Unexpected error: boom"⟩ :=
  ⟨rfl, rfl, rfl, rfl⟩

/-! ## C4 — duplicate username / email on registration -/

/-- C4 counterexample: the claim states the error message distinguishes
username-only, email-only and both-conflicting candidates.  Against a
store holding user ("alice5", "a@x.com"), the both-conflict candidate
and the username-only-conflict candidate produce the IDENTICAL error, so
the three cases are not distinguished. -/
theorem C4_counterexample_both_equals_username_only :
    register_user { username := "alice5", email := "a@x.com", password := some "pw" } 5 aliceStore
        = .error (.http 400 "Username already exists.")
    ∧ register_user { username := "alice5", email := "fresh@x.com", password := some "pw" } 5 aliceStore
        = .error (.http 400 "Username already exists.") :=
  ⟨rfl, rfl⟩

/-- C4 (amended): with a password supplied and non-blank fields, the
username and email collisions are checked independently; any username
collision — whether or not the email also collides — fails with
"Username already exists." (400), and an email-only collision fails with
"Email already exists." (400).  The both-conflict case is not given a
distinct message. -/
theorem C4_conflict_checked_independently (c : RegCandidate) (pw : String)
    (now : Nat) (db : Store)
    (hpw : c.password = some pw) (hpwb : isBlank pw = false)
    (hub : isBlank c.username = false) (heb : isBlank c.email = false) :
    ((∃ u ∈ db.users, u.username = c.username) →
        register_user c now db = .error (.http 400 "Username already exists."))
    ∧ ((¬ ∃ u ∈ db.users, u.username = c.username) →
        (∃ u ∈ db.users, u.email = c.email) →
        register_user c now db = .error (.http 400 "Email already exists.")) := by
  constructor
  · intro hu
    have hfind : (db.users.find? (fun u => u.username == c.username)).isSome := by
      rw [List.find?_isSome]
      obtain ⟨u, hmem, hEq⟩ := hu
      exact ⟨u, hmem, by simp [hEq]⟩
    simp [register_user, hub, heb, hpw, hpwb, hfind]
  · intro hu he
    have hfindu : db.users.find? (fun u => u.username == c.username) = none := by
      rw [List.find?_eq_none]
      intro u hmem hEq
      exact hu ⟨u, hmem, by simpa using hEq⟩
    have hfinde : (db.users.find? (fun u => u.email == c.email)).isSome := by
      rw [List.find?_isSome]
      obtain ⟨u, hmem, hEq⟩ := he
      exact ⟨u, hmem, by simp [hEq]⟩
    simp [register_user, hub, heb, hpw, hpwb, hfindu, hfinde]

/-- C4 witness: the amended theorem applied to a concrete username-only
collision against `aliceStore`. -/
theorem C4_conflict_witness :
    register_user { username := "alice5", email := "b@x.com", password := some "pw" } 0 aliceStore
      = .error (.http 400 "Username already exists.") :=
  (C4_conflict_checked_independently
      { username := "alice5", email := "b@x.com", password := some "pw" }
      "pw" 0 aliceStore rfl rfl rfl rfl).1
    ⟨{ id := 1, username := "alice5", email := "a@x.com",
       hashed_password := "h", created_at := 0, updated_at := 0 },
     by simp [aliceStore, emptyStore], rfl⟩

/-! ## C10 — schema-boundary rejection -/

/-- C10: for every request body whose username is shorter than 5
characters or whose email lacks an '@', and for every store and instant,
the POST /register pipeline fails at `UserCreate` validation with a 422
— before `register_user` (and hence any store access) runs; the result
does not depend on the store. -/
theorem C10_schema_rejects_short_username_or_bad_email
    (body : RegisterBody) (now : Nat) (db : Store)
    (h : body.username.length < 5 ∨ body.email.data.contains '@' = false) :
    ∃ msg, validate_user_create body.username body.email = .error msg
      ∧ postRegister body now db = .error (.http 422 msg) := by
  have hval : ∃ msg, validate_user_create body.username body.email = .error msg := by
    unfold validate_user_create
    split_ifs with h1 h2 h3 h4 h5
    · exact ⟨_, rfl⟩
    · exact ⟨_, rfl⟩
    · exact ⟨_, rfl⟩
    · exact ⟨_, rfl⟩
    · exact ⟨_, rfl⟩
    · rcases h with h | h
      · exact absurd h h1
      · exact absurd h5 (by simpa using h)
  obtain ⟨msg, hmsg⟩ := hval
  exact ⟨msg, hmsg, by simp [postRegister, hmsg]⟩

/-- C10 witness: a four-character username is rejected with a 422 for the
empty store. -/
theorem C10_witness :
    ∃ msg, validate_user_create "abcd" "a@x.com" = .error msg
      ∧ postRegister { username := "abcd", email := "a@x.com", password := "pw12" } 0 emptyStore
          = .error (.http 422 msg) :=
  C10_schema_rejects_short_username_or_bad_email
    { username := "abcd", email := "a@x.com", password := "pw12" } 0 emptyStore
    (Or.inl (by decide))

/-! ## C2 — what addToBookshelf returns -/

/-- C2 counterexample: the claim states a successful addToBookshelf
returns the user's FULL bookshelf.  Starting from a store where bob
already shelves book 1, adding book 2 returns a `bookshelf` list holding
ONLY the new entry, while the user's full bookshelf (as GET
/users/bookshelf reports on the resulting store) has two entries. -/
theorem C2_counterexample_only_new_entry :
    add_book_to_bookshelf "bob12" 2 "reading" 7 shelfStore
      = .ok ({ username := "bob12"
               bookshelf := [{ id := 2, book_id := 2, title := "Emma", author := "Jane Austen",
                               status := "reading", added_date := 7 }] },
             shelfStoreAfter)
    ∧ get_user_bookshelf "bob12" shelfStoreAfter
      = .ok { username := "bob12"
              bookshelf := [{ id := 1, book_id := 1, title := "Dune", author := "Frank Herbert",
                              status := "read", added_date := 0 },
                            { id := 2, book_id := 2, title := "Emma", author := "Jane Austen",
                              status := "reading", added_date := 7 }] } :=
  ⟨rfl, rfl⟩

/-- C2 (amended): a successful addToBookshelf (valid status, existing
user and book, no prior (user, book) entry) creates the entry stamped
with the current date, but the returned `bookshelf` list contains only
the newly created entry — not the user's other entries. -/
theorem C2_add_returns_only_the_new_entry (username : String) (book_id : Nat)
    (status : String) (today : Nat) (db : Store) (user : User) (book : Book)
    (hub : isBlank username = false) (hsb : isBlank status = false)
    (hs : READING_STATUSES.contains status = true)
    (hu : db.users.find? (fun u => u.username == username) = some user)
    (hb : db.books.find? (fun b => b.id == book_id) = some book)
    (hdup : db.bookshelves.find?
        (fun e => e.user_id == user.id && e.book_id == book.id) = none) :
    add_book_to_bookshelf username book_id status today db
      = .ok ({ username := user.username
               bookshelf := [{ id := db.nextShelfId, book_id := book.id, title := book.title,
                               author := book.author, status := status, added_date := today }] },
             { db with bookshelves := db.bookshelves ++
                                        [{ id := db.nextShelfId, user_id := user.id,
                                           book_id := book.id, status := status,
                                           date_added := today }],
                       nextShelfId := db.nextShelfId + 1 }) := by
  have hmem : status ∈ READING_STATUSES := by simpa using hs
  simp [add_book_to_bookshelf, hub, hsb, hmem, hu, hb, hdup]

/-- C2 witness: the amended theorem applied to `shelfStore`. -/
theorem C2_add_witness :
    add_book_to_bookshelf "bob12" 2 "reading" 7 shelfStore
      = .ok ({ username := "bob12"
               bookshelf := [{ id := 2, book_id := 2, title := "Emma", author := "Jane Austen",
                               status := "reading", added_date := 7 }] },
             { shelfStore with bookshelves := shelfStore.bookshelves ++
                                                [{ id := 2, user_id := 1, book_id := 2,
                                                   status := "reading", date_added := 7 }],
                               nextShelfId := 3 }) :=
  C2_add_returns_only_the_new_entry "bob12" 2 "reading" 7 shelfStore
    { id := 1, username := "bob12", email := "b@x.com",
      hashed_password := "h", created_at := 0, updated_at := 0 }
    { id := 2, title := "Emma", author := "Jane Austen", isbn := "222",
      genre := "classic", description := "d", published_date := none }
    rfl rfl rfl rfl rfl rfl

/-! ## C7 — at most one bookshelf entry per (user, book) -/

/-- No two bookshelf rows link the same (user, book) pair. -/
def PairUnique (entries : List ShelfEntry) : Prop :=
  entries.Pairwise (fun a b => ¬(a.user_id = b.user_id ∧ a.book_id = b.book_id))

/-- C7: (a) a successful addToBookshelf preserves pair-uniqueness of the
bookshelf table; (b) a second addToBookshelf with the same user and book
(and any valid status) fails with the 400 conflict — and since a failing
call returns no store, it creates nothing; (c) updateBookshelfStatus
never changes the list of (user, book) pairs.  These are the only
operations that touch the bookshelf table. -/
theorem C7_pair_per_user_book_unique (username : String) (book_id : Nat)
    (status new_status : String) (today : Nat) (db : Store) :
    (∀ resp db2, PairUnique db.bookshelves →
        add_book_to_bookshelf username book_id status today db = .ok (resp, db2) →
        PairUnique db2.bookshelves)
    ∧ (∀ resp db2 status2 today2, READING_STATUSES.contains status2 = true →
        isBlank status2 = false →
        add_book_to_bookshelf username book_id status today db = .ok (resp, db2) →
        add_book_to_bookshelf username book_id status2 today2 db2
          = .error (.http 400 "Book already in user's bookshelf."))
    ∧ (∀ resp db2,
        update_bookshelf_status username book_id new_status db = .ok (resp, db2) →
        db2.bookshelves.map (fun e => (e.user_id, e.book_id))
          = db.bookshelves.map (fun e => (e.user_id, e.book_id))) := by
  refine ⟨?_, ?_, ?_⟩
  · intro resp db2 hinv hok
    unfold add_book_to_bookshelf at hok
    split_ifs at hok with h1 h2 h3
    cases hu : db.users.find? (fun u => u.username == username) with
    | none => rw [hu] at hok; simp at hok
    | some user =>
      rw [hu] at hok
      cases hb : db.books.find? (fun b => b.id == book_id) with
      | none => rw [hb] at hok; simp at hok
      | some book =>
        rw [hb] at hok
        by_cases hd : (db.bookshelves.find?
            (fun e => e.user_id == user.id && e.book_id == book.id)).isSome
        · simp [hd] at hok
        · simp only [hd, if_false, Bool.false_eq_true] at hok
          have hnone : db.bookshelves.find?
              (fun e => e.user_id == user.id && e.book_id == book.id) = none :=
            Option.not_isSome_iff_eq_none.mp hd
          have hall := List.find?_eq_none.mp hnone
          simp only [Except.ok.injEq, Prod.mk.injEq] at hok
          obtain ⟨hresp, hdb2⟩ := hok
          rw [← hdb2]
          refine List.pairwise_append.mpr ⟨hinv, List.pairwise_singleton _ _, ?_⟩
          intro a ha b hbmem
          rw [List.mem_singleton] at hbmem
          subst hbmem
          intro hcontra
          have := hall a ha
          simp only [Bool.and_eq_true, beq_iff_eq, not_and] at this
          exact this (by simpa using hcontra.1) (by simpa using hcontra.2)
  · intro resp db2 status2 today2 hs2 hsb2 hok
    unfold add_book_to_bookshelf at hok
    split_ifs at hok with h1 h2 h3
    cases hu : db.users.find? (fun u => u.username == username) with
    | none => rw [hu] at hok; simp at hok
    | some user =>
      rw [hu] at hok
      cases hb : db.books.find? (fun b => b.id == book_id) with
      | none => rw [hb] at hok; simp at hok
      | some book =>
        rw [hb] at hok
        by_cases hd : (db.bookshelves.find?
            (fun e => e.user_id == user.id && e.book_id == book.id)).isSome
        · simp [hd] at hok
        · simp only [hd, if_false, Bool.false_eq_true] at hok
          simp only [Except.ok.injEq, Prod.mk.injEq] at hok
          obtain ⟨hresp, hdb2⟩ := hok
          have hmem2 : status2 ∈ READING_STATUSES := by simpa using hs2
          have husers : db2.users = db.users := by rw [← hdb2]
          have hbooks : db2.books = db.books := by rw [← hdb2]
          have hdup2 : (db2.bookshelves.find?
              (fun e => e.user_id == user.id && e.book_id == book.id)).isSome := by
            rw [← hdb2]
            rw [List.find?_isSome]
            exact ⟨{ id := db.nextShelfId, user_id := user.id, book_id := book.id,
                     status := status, date_added := today }, by simp, by simp⟩
          simp [add_book_to_bookshelf, h1, hsb2, hmem2, husers, hu, hbooks, hb, hdup2]
  · intro resp db2 hok
    unfold update_bookshelf_status at hok
    split at hok
    · exact absurd hok (by simp)
    split at hok
    · exact absurd hok (by simp)
    split at hok
    · exact absurd hok (by simp)
    split at hok
    · exact absurd hok (by simp)
    rename_i user hu entry he hst
    simp only [Except.ok.injEq, Prod.mk.injEq] at hok
    obtain ⟨hresp, hdb2⟩ := hok
    rw [← hdb2]
    simp only [List.map_map]
    apply List.map_congr_left
    intro a ha
    by_cases hid : (a.id == entry.id) = true <;> simp [hid, Function.comp]

/-- C7 witness: after the first add (book 2 onto bob's shelf, producing
`shelfStoreAfter`), a second add of the same pair fails with the
conflict. -/
theorem C7_witness_second_add_conflicts :
    add_book_to_bookshelf "bob12" 2 "read" 9 shelfStoreAfter
      = .error (.http 400 "Book already in user's bookshelf.") :=
  (C7_pair_per_user_book_unique "bob12" 2 "reading" "read" 7 shelfStore).2.1
    { username := "bob12"
      bookshelf := [{ id := 2, book_id := 2, title := "Emma", author := "Jane Austen",
                      status := "reading", added_date := 7 }] }
    shelfStoreAfter "read" 9 rfl rfl rfl

/-! ## C8 — reading-list capacity and per-user name uniqueness -/

/-- Every user owns at most 3 reading lists, and no two lists of the same
user share a name. -/
def ReadingListsInv (lists : List ReadingListRec) : Prop :=
  (∀ uid : Nat, (lists.filter (fun rl => rl.user_id == uid)).length ≤ 3)
  ∧ lists.Pairwise (fun a b => ¬(a.user_id = b.user_id ∧ a.list_name = b.list_name))

/-- C8: for an existing user, createReadingList (1) rejects a fourth
list with the capacity conflict regardless of the requested name (the
count check runs before the name check), (2) rejects a duplicate
(user, name) with the name conflict, (3) otherwise appends an empty
list, and (4) preserves the capacity/name-uniqueness invariant. -/
theorem C8_reading_list_capacity_and_names (username name : String)
    (db : Store) (user : User)
    (hub : isBlank username = false)
    (hu : db.users.find? (fun u => u.username == username) = some user) :
    ((db.reading_lists.filter (fun rl => rl.user_id == user.id)).length ≥ 3 →
        create_reading_list username name db
          = .error (.http 400 "User can have 3 reading lists simultaneously."))
    ∧ ((db.reading_lists.filter (fun rl => rl.user_id == user.id)).length < 3 →
        (db.reading_lists.find?
            (fun rl => rl.user_id == user.id && rl.list_name == name)).isSome →
        create_reading_list username name db
          = .error (.http 400 "Reading list with this name already exists."))
    ∧ ((db.reading_lists.filter (fun rl => rl.user_id == user.id)).length < 3 →
        db.reading_lists.find?
            (fun rl => rl.user_id == user.id && rl.list_name == name) = none →
        create_reading_list username name db
          = .ok ({ id := db.nextListId, username := user.username,
                   reading_list_name := name, books := [] },
                 { db with reading_lists := db.reading_lists ++
                                            [{ id := db.nextListId, list_name := name,
                                               user_id := user.id }],
                           nextListId := db.nextListId + 1 }))
    ∧ (∀ resp db2, ReadingListsInv db.reading_lists →
        create_reading_list username name db = .ok (resp, db2) →
        ReadingListsInv db2.reading_lists) := by
  refine ⟨?_, ?_, ?_, ?_⟩
  · intro hc
    simp [create_reading_list, hub, hu, hc]
  · intro hc hd
    have hc2 : ¬((db.reading_lists.filter (fun rl => rl.user_id == user.id)).length ≥ 3) := by omega
    simp [create_reading_list, hub, hu, hc2, hd]
  · intro hc hd
    have hc2 : ¬((db.reading_lists.filter (fun rl => rl.user_id == user.id)).length ≥ 3) := by omega
    simp [create_reading_list, hub, hu, hc2, hd]
  · intro resp db2 hinv hok
    unfold create_reading_list at hok
    simp only [hub, Bool.false_eq_true, if_false, hu] at hok
    split_ifs at hok with hc hd
    simp only [Except.ok.injEq, Prod.mk.injEq] at hok
    obtain ⟨hresp, hdb2⟩ := hok
    rw [← hdb2]
    obtain ⟨hcount, hpair⟩ := hinv
    constructor
    · intro uid
      rw [List.filter_append, List.length_append]
      by_cases huid : user.id == uid
      · have hone : (List.filter (fun rl => rl.user_id == uid)
            [({ id := db.nextListId, list_name := name, user_id := user.id } : ReadingListRec)]).length = 1 := by
          simp [List.filter_singleton, huid]
        rw [hone]
        have huid2 : user.id = uid := by simpa using huid
        subst huid2
        omega
      · have hzero : (List.filter (fun rl => rl.user_id == uid)
            [({ id := db.nextListId, list_name := name, user_id := user.id } : ReadingListRec)]).length = 0 := by
          simp [List.filter_singleton, huid]
        rw [hzero]
        simpa using hcount uid
    · have hall := List.find?_eq_none.mp (Option.not_isSome_iff_eq_none.mp hd)
      refine List.pairwise_append.mpr ⟨hpair, List.pairwise_singleton _ _, ?_⟩
      intro a ha b hbmem
      rw [List.mem_singleton] at hbmem
      subst hbmem
      intro hcontra
      have := hall a ha
      simp only [Bool.and_eq_true, beq_iff_eq, not_and] at this
      exact this (by simpa using hcontra.1) (by simpa using hcontra.2)

/-- A store whose one user already owns three reading lists. -/
def listStore : Store :=
  { emptyStore with
      users := [{ id := 1, username := "carol", email := "c@x.com",
                  hashed_password := "h", created_at := 0, updated_at := 0 }]
      reading_lists := [{ id := 1, list_name := "A", user_id := 1 },
                        { id := 2, list_name := "B", user_id := 1 },
                        { id := 3, list_name := "C", user_id := 1 }]
      nextUserId := 2, nextListId := 4 }

/-- C8 witness: a fourth list for carol is rejected with the capacity
conflict even though the name "D" is fresh. -/
theorem C8_witness_fourth_list_rejected :
    create_reading_list "carol" "D" listStore
      = .error (.http 400 "User can have 3 reading lists simultaneously.") :=
  (C8_reading_list_capacity_and_names "carol" "D" listStore
      { id := 1, username := "carol", email := "c@x.com",
        hashed_password := "h", created_at := 0, updated_at := 0 }
      rfl rfl).1 (by decide)

/-! ## C9 — 404 only when local-only search finds nothing -/

/-- C9: for a request with a non-blank title or author: with
`external=false` and an empty local match the endpoint fails with the
404 whose structured detail carries empty local and external lists; with
`external=true` that 404 is never produced — and whenever the external
lookup yields a payload the endpoint returns 200 with the (possibly
empty) local list and the converted external documents. -/
theorem C9_local_404_vs_external_200 (title author : Option String) (limit : Nat)
    (remote : RemoteOutcome) (db : Store)
    (hblank : (optBlank title && optBlank author) = false) :
    (localFilter title author db = [] →
        get_book_by_name_or_author title author limit false remote db
          = .error (.notFoundLocal "No data found locally." [] []))
    ∧ (∀ m lr er, get_book_by_name_or_author title author limit true remote db
          ≠ .error (.notFoundLocal m lr er))
    ∧ (∀ data, search_openlibrary remote = .ok data →
        get_book_by_name_or_author title author limit true remote db
          = .ok ((localFilter title author db).map bookToOut, data.docs.map docToExt)) := by
  refine ⟨?_, ?_, ?_⟩
  · intro hl
    simp [get_book_by_name_or_author, hblank, hl]
  · intro m lr er
    unfold get_book_by_name_or_author
    simp only [hblank, Bool.false_eq_true, if_false, if_true]
    cases hs : search_openlibrary remote <;> simp
  · intro data hs
    simp [get_book_by_name_or_author, hblank, hs]

/-- C9 witness: on the empty store, searching "Dune" without external
augmentation is the structured 404, while the same search with
`external=true` against a successful empty remote payload returns 200
with both lists empty. -/
theorem C9_witness :
    get_book_by_name_or_author (some "Dune") none 5 false
        (.response 200 "OK" { docs := [] }) emptyStore
      = .error (.notFoundLocal "No data found locally." [] [])
    ∧ get_book_by_name_or_author (some "Dune") none 5 true
        (.response 200 "OK" { docs := [] }) emptyStore
      = .ok ([], []) :=
  ⟨(C9_local_404_vs_external_200 (some "Dune") none 5
      (.response 200 "OK" { docs := [] }) emptyStore rfl).1 rfl,
   (C9_local_404_vs_external_200 (some "Dune") none 5
      (.response 200 "OK" { docs := [] }) emptyStore rfl).2.2 { docs := [] } rfl⟩

/-! ## C5, C6 — the memoization cache -/

/-- Removing at least one element (a member on which the predicate is
false) strictly shrinks a filtered list. -/
theorem length_filter_lt_of_mem_not {α : Type} (l : List α) (p : α → Bool) (x : α)
    (hx : x ∈ l) (hp : p x = false) : (l.filter p).length < l.length := by
  induction l with
  | nil => cases hx
  | cons a t ih =>
    rw [List.filter_cons]
    rcases List.mem_cons.mp hx with rfl | hx2
    · rw [hp]
      simp only [List.length_cons]
      exact Nat.lt_succ_of_le (List.length_filter_le p t)
    · by_cases hpa : p a = true
      · simp only [hpa, if_true, List.length_cons]
        exact Nat.succ_lt_succ (ih hx2)
      · simp only [hpa, if_false, List.length_cons]
        exact Nat.lt_succ_of_lt (ih hx2)

theorem LruCache.get_maxsize [DecidableEq κ] (c : LruCache κ ρ) (k : κ) (v : ρ) :
    ((c.get k v).2.1).maxsize = c.maxsize := by
  unfold LruCache.get
  cases h : c.entries.find? (fun e => decide (e.1 = k)) <;> simp

theorem LruCache.get_length_le [DecidableEq κ] (c : LruCache κ ρ) (k : κ) (v : ρ)
    (h : c.entries.length ≤ c.maxsize) :
    ((c.get k v).2.1).entries.length ≤ c.maxsize := by
  unfold LruCache.get
  cases hf : c.entries.find? (fun e => decide (e.1 = k)) with
  | none =>
    simp only [List.length_cons]
    by_cases hlen : c.entries.length + 1 > c.maxsize
    · simp only [hlen, if_true, List.length_dropLast, List.length_cons]
      omega
    · simp only [hlen, if_false, List.length_cons]
      omega
  | some e =>
    simp only [List.length_cons]
    have hmem := List.mem_of_find?_eq_some hf
    have hpe : (fun p => decide (p.1 ≠ k)) e = false := by
      have hpt := List.find?_some hf
      simp at hpt ⊢
      exact hpt
    have hlt := length_filter_lt_of_mem_not c.entries
      (fun p => decide (p.1 ≠ k)) e hmem hpe
    omega

theorem runGets_maxsize [DecidableEq κ] (calls : List (κ × ρ)) :
    ∀ c : LruCache κ ρ, (runGets c calls).maxsize = c.maxsize := by
  induction calls with
  | nil => intro c; rfl
  | cons kv rest ih =>
    intro c
    obtain ⟨k, v⟩ := kv
    simp only [runGets]
    rw [ih, LruCache.get_maxsize]

theorem runGets_length_le [DecidableEq κ] (calls : List (κ × ρ)) :
    ∀ c : LruCache κ ρ, c.entries.length ≤ c.maxsize →
      (runGets c calls).entries.length ≤ (runGets c calls).maxsize := by
  induction calls with
  | nil => intro c h; simpa [runGets] using h
  | cons kv rest ih =>
    intro c h
    obtain ⟨k, v⟩ := kv
    simp only [runGets]
    apply ih
    rw [LruCache.get_maxsize]
    exact LruCache.get_length_le c k v h

/-- C5: starting from the fresh cache, the first `get` on any key
invokes the remote; a second `get` skips the remote exactly when its key
triple is EQUAL to the first (any difference — primary, secondary filter
or limit, with no normalization — causes a second remote invocation);
and on the equal triple both calls return the first stored payload even
though the remote would now produce `v2`. -/
theorem C5_cache_keyed_by_exact_triple (k1 k2 : CacheKey) (v1 v2 : Payload) :
    ((emptyCache.get k1 v1).2.2 = true)
    ∧ (((emptyCache.get k1 v1).2.1.get k2 v2).2.2 = false ↔ k2 = k1)
    ∧ (k2 = k1 →
        ((emptyCache.get k1 v1).2.1.get k2 v2).1 = v1
          ∧ (emptyCache.get k1 v1).1 = v1) := by
  have hfirst : emptyCache.get k1 v1
      = (v1, { entries := [(k1, v1)], hits := 0, misses := 1, maxsize := 64 }, true) := by
    simp [LruCache.get, emptyCache]
  refine ⟨by rw [hfirst], ?_, ?_⟩
  · rw [hfirst]
    by_cases h : k2 = k1
    · subst h
      simp [LruCache.get]
    · have hne : ¬(k1 = k2) := fun hEq => h hEq.symm
      simp [LruCache.get, List.find?_cons, hne, h]
  · intro h
    subst h
    rw [hfirst]
    constructor
    · simp [LruCache.get]
    · rfl

/-- C6: (1) after any sequence of `get` calls from the fresh cache the
table holds at most 64 entries; (2) when a `get` misses on a full cache
the new table is the new entry followed by all previous entries except
the last — the least-recently-used one (entries are kept
most-recently-used first), so eviction is by recency, never by time
(no `get` consults any clock). -/
theorem C6_cache_bounded_and_lru (calls : List (CacheKey × Payload))
    (c : LruCache CacheKey Payload) (k : CacheKey) (v : Payload) :
    ((runGets emptyCache calls).entries.length ≤ 64)
    ∧ (c.maxsize = 64 → c.entries.length = 64 → c.lookup k = none →
        (c.get k v).2.1.entries = (k, v) :: c.entries.dropLast) := by
  constructor
  · have h := runGets_length_le calls emptyCache (by simp [emptyCache])
    have hm := runGets_maxsize calls emptyCache
    rw [hm] at h
    exact h
  · intro hmax hlen hlook
    have hf : c.entries.find? (fun e => decide (e.1 = k)) = none := by
      unfold LruCache.lookup at hlook
      exact Option.map_eq_none.mp hlook
    unfold LruCache.get
    rw [hf]
    simp only [List.length_cons, hlen, hmax]
    rw [if_pos (by omega : (64 : Nat) + 1 > 64)]
    cases hent : c.entries with
    | nil => rw [hent] at hlen; simp at hlen
    | cons e rest => rw [List.dropLast_cons₂]
/-- Distinct remote payloads used to exhibit memoization. -/
def pA : Payload := { docs := [] }

def pB : Payload :=
  { docs := [{ title := some "X", author_name := [], isbn := [],
               subject := [], first_publish_year := none }] }

/-- C5 witness: the spec scenario — get("Dune", null, 5) twice returns
the first payload with one remote invocation; get("Dune", "Herbert", 5)
afterwards invokes the remote again. -/
theorem C5_witness_dune_scenario :
    ((emptyCache.get (some "Dune", none, 5) pA).2.2 = true)
    ∧ (((emptyCache.get (some "Dune", none, 5) pA).2.1.get (some "Dune", none, 5) pB).1 = pA)
    ∧ (((emptyCache.get (some "Dune", none, 5) pA).2.1.get (some "Dune", none, 5) pB).2.2 = false)
    ∧ (((emptyCache.get (some "Dune", none, 5) pA).2.1.get
          (some "Dune", some "Herbert", 5) pB).2.2 = true) := by
  have h1 := C5_cache_keyed_by_exact_triple (some "Dune", none, 5) (some "Dune", none, 5) pA pB
  have h2 := C5_cache_keyed_by_exact_triple (some "Dune", none, 5) (some "Dune", some "Herbert", 5) pA pB
  refine ⟨h1.1, (h1.2.2 rfl).1, h1.2.1.mpr rfl, ?_⟩
  have hne : ¬(((some "Dune", some "Herbert", 5) : CacheKey) = (some "Dune", none, 5)) := by
    decide
  cases hinv : ((emptyCache.get (some "Dune", none, 5) pA).2.1.get
      (some "Dune", some "Herbert", 5) pB).2.2 with
  | false => exact absurd (h2.2.1.mp hinv) hne
  | true => rfl

/-- A full cache: 64 resident entries at capacity 64. -/
def fullCache : LruCache CacheKey Payload :=
  { entries := (List.range 64).map
      (fun i => (((none : Option String), (none : Option String), i), ({ docs := [] } : Payload)))
    hits := 0, misses := 0, maxsize := 64 }

/-- C6 witness: the bound after one call, and the LRU eviction of the
64-entry cache on a missing key. -/
theorem C6_witness_eviction :
    ((runGets emptyCache [((some "Dune", none, 5), { docs := [] })]).entries.length ≤ 64)
    ∧ (fullCache.get ((none, none, 100) : CacheKey) { docs := [] }).2.1.entries
        = (((none, none, 100) : CacheKey), ({ docs := [] } : Payload))
            :: fullCache.entries.dropLast := by
  have h := C6_cache_bounded_and_lru [((some "Dune", none, 5), { docs := [] })]
    fullCache (none, none, 100) { docs := [] }
  exact ⟨h.1, h.2 rfl (by decide) (by decide)⟩

end LibraryApi






